import Mathlib

/-!
Verification of the ReadersAndWriters repository (src/r_w_1.c, src/r_w_2.c).

The two C files implement the classic readers/writers problem with a
librarian (arbiter) thread.  Policy A (r_w_1.c) uses a windowed admission
scheme with a `writer_notification` gate; Policy B (r_w_2.c) keeps a single
FIFO queue of `struct presence` records shared by both kinds.

This file gives a shallow embedding of the data model and the operations:
pure C functions become Lean functions on `Int` (C `int`/`time_t` values stay
well inside 32/64-bit ranges for all inputs considered, so unbounded integers
are used), arrays become `List`s of the element type, and an array access
that the C code could perform out of bounds is modelled by returning `none`.
Memory returned by `malloc` is modelled as zero-initialised, which is how the
code observably behaves on a fresh process image (the arrays are written
before any rerun).  The concurrency of r_w_1.c is modelled as a small-step
transition relation whose steps are the mutex-protected critical sections
and the unprotected checks of the threads, specialised to one reader and one
writer.
-/

/-- `get_random` from r_w_1.c lines 451-454 and r_w_2.c lines 568-571:
`int range = max - min + 1; return (rand() % range) + min;`.
The `rand()` result is passed in as `r` (C guarantees `0 ≤ rand()`), and
C's `%`, which truncates toward zero, is `Int.tmod`. -/
def get_random (r min max : Int) : Int :=
  Int.tmod r (max - min + 1) + min

namespace RW2

/-- `struct presence` from r_w_2.c lines 54-67. -/
structure presence where
  kind : Int
  id : Int
  timestamp : Int
deriving DecidableEq, Repr

/-- `NO_KIND` (r_w_2.c line 41). -/
def NO_KIND : Int := 0

/-- `READER_KIND` (r_w_2.c line 45). -/
def READER_KIND : Int := 1

/-- `WRITER_KIND` (r_w_2.c line 49). -/
def WRITER_KIND : Int := 2

/-- Number of records of a given kind in an array, as counted by
`get_readers_queue_count` / `get_writers_queue_count` /
`get_readers_in_library_count` / `get_writers_in_library_count`
(r_w_2.c lines 223-276), parameterised by the kind. -/
def countKind (k : Int) (l : List presence) : Nat :=
  (l.filter (fun e => e.kind = k)).length

/-- `get_to_queue` (r_w_2.c lines 419-428): scan for the first position whose
`kind` is `NO_KIND` and overwrite it with `⟨kind, id, timestamp⟩`.  The C scan
has no bound, so a queue with no empty slot makes it read past the end of the
array: that case is modelled as `none`. -/
def get_to_queue (k id ts : Int) : List presence → Option (List presence)
  | [] => none
  | e :: rest =>
    if e.kind = NO_KIND then
      some (⟨k, id, ts⟩ :: rest)
    else
      (get_to_queue k id ts rest).map (e :: ·)

/-- `get_to_library` (r_w_2.c lines 437-446): identical scan-and-insert on the
`in_library` array. -/
def get_to_library (k id ts : Int) : List presence → Option (List presence)
  | [] => none
  | e :: rest =>
    if e.kind = NO_KIND then
      some (⟨k, id, ts⟩ :: rest)
    else
      (get_to_library k id ts rest).map (e :: ·)

/-- Overwrite only the `kind` field of entry `i`, as the C statements
`queue[i].kind = NO_KIND` and `in_library[i].kind = NO_KIND` do. -/
def setKind (l : List presence) (i : Nat) (k : Int) : List presence :=
  match l.get? i with
  | some e => l.set i ⟨k, e.id, e.timestamp⟩
  | none => l

/-- Loop of `leave_queue` (r_w_2.c lines 452-461):
`while (queue[i + 1].kind != NO_KIND && i < 20) { copy queue[i+1] to queue[i]; i++; }`
followed by `queue[i].kind = NO_KIND;`.  The condition reads `queue[i + 1]`
before testing `i < 20`, so the read happens even at `i = 20`; a read past the
end of the array is modelled as `none`.  The `fuel` argument only makes the
recursion structural: the `i < 20` bound means the loop body runs at most 20
times, so starting from fuel 21 the zero-fuel case is never reached. -/
def leaveQueueGo (q : List presence) (i : Nat) : Nat → Option (List presence)
  | 0 => none
  | fuel + 1 =>
    match q.get? (i + 1) with
    | none => none
    | some e =>
      if e.kind ≠ NO_KIND ∧ i < 20 then
        leaveQueueGo (q.set i e) (i + 1) fuel
      else
        some (setKind q i NO_KIND)

/-- `leave_queue` (r_w_2.c lines 452-461), shifting every queue entry one
position down (up to the hardcoded `i < 20` bound) and clearing the slot the
shift stopped at. -/
def leave_queue (q : List presence) : Option (List presence) :=
  leaveQueueGo q 0 21

/-- `leave_library` (r_w_2.c lines 469-476): scan `in_library` for the first
entry matching both `kind` and `id`, set its `kind` to `NO_KIND`, and `break`.
The loop is bounded by the array length, so it is total. -/
def leave_library (k id : Int) : List presence → List presence
  | [] => []
  | e :: rest =>
    if e.kind = k ∧ e.id = id then
      ⟨NO_KIND, e.id, e.timestamp⟩ :: rest
    else
      e :: leave_library k id rest

/-- The zeroed record a freshly mapped `malloc` page yields for
`struct presence`. -/
def zeroP : presence := ⟨0, 0, 0⟩

/-- Loop body sequencing of `init_queue` (r_w_2.c lines 540-550): at index `i`
the code calls `get_to_queue(READER_KIND, i)` while `i < readers_count` and
`get_to_queue(WRITER_KIND, i - readers_count)` afterwards, and clears
`in_library[i].kind`.  `ts` supplies the value of `get_timestamp()` at the
`i`-th call. -/
def initQueueGo (R W : Nat) (ts : Nat → Int) (i : Nat)
    (st : List presence × List presence) : Option (List presence × List presence) :=
  if _h : i < R + W then
    match get_to_queue (if i < R then READER_KIND else WRITER_KIND)
        (if i < R then (i : Int) else (i : Int) - (R : Int)) (ts i) st.1 with
    | none => none
    | some q2 => initQueueGo R W ts (i + 1) (q2, setKind st.2 i NO_KIND)
  else
    some st
termination_by R + W - i

/-- `init_queue` (r_w_2.c lines 540-550) started on the freshly allocated
(zero) `queue` and `in_library` arrays of `readers_count + writers_count`
entries each. -/
def init_queue (R W : Nat) (ts : Nat → Int) : Option (List presence × List presence) :=
  initQueueGo R W ts 0 (List.replicate (R + W) zeroP, List.replicate (R + W) zeroP)

/-- The queue layout `init_queue` is expected to produce: all readers in
ascending id order, then all writers in ascending id order. -/
def initLayout (R W : Nat) (ts : Nat → Int) : List presence :=
  (List.range R).map (fun i => ⟨READER_KIND, (i : Int), ts i⟩)
    ++ (List.range W).map (fun j => ⟨WRITER_KIND, (j : Int), ts (R + j)⟩)

end RW2

namespace RW1

/-- Loop of the librarian's selection scan (r_w_1.c lines 334-341):
`for (i = 0; i < writers_count; i++) { time = get_timestamp() - writers_queue[i];
if (time > max_time) { max_time = time; max_waiter_id = i; } }`
starting from `max_waiter_id = 0, max_time = 0`.  `l` is the suffix of
`writers_queue` not yet scanned, `i` the C loop counter, `acc` the pair
`(max_waiter_id, max_time)`. -/
def selectFrom (now : Int) : List Int → Nat → Nat × Int → Nat × Int
  | [], _, acc => acc
  | t :: rest, i, acc =>
    selectFrom now rest (i + 1) (if now - t > acc.2 then (i, now - t) else acc)

/-- The librarian's selection of the longest-waiting writer
(r_w_1.c lines 334-341), returning `(max_waiter_id, max_time)`. -/
def selectMaxWaiter (now : Int) (writers_queue : List Int) : Nat × Int :=
  selectFrom now writers_queue 0 (0, 0)

/-- One cycle body of `librarian` (r_w_1.c lines 331-345) after the sleep:
`if (!writers_in_library_count) { writer_notification = 1; <scan>;
pthread_cond_signal(&writers_conds[max_waiter_id]); }`.
Returns the new value of `writer_notification` (as a `Bool`) and the id whose
condition variable is signalled, if any. -/
def librarianCycle (now : Int) (writers_in_library_count : Int)
    (writer_gate : Bool) (writers_queue : List Int) : Bool × Option Nat :=
  if writers_in_library_count = 0 then
    (true, some (selectMaxWaiter now writers_queue).1)
  else
    (writer_gate, none)

/-- Specification of "the waiting writer with the maximum waiting time
`now - wait_since`, ties broken by lowest id": index `j` is in range, no
writer waits longer, and every lower id waits strictly less long. -/
def isLongestWaiter (now : Int) (q : List Int) (j : Nat) : Prop :=
  j < q.length ∧
  (∀ i, i < q.length → now - q.getD i 0 ≤ now - q.getD j 0) ∧
  (∀ i, i < j → now - q.getD i 0 < now - q.getD j 0)

instance (now : Int) (q : List Int) (j : Nat) : Decidable (isLongestWaiter now q j) := by
  unfold isLongestWaiter
  infer_instance

/-- The shared globals of r_w_1.c mutated by `read_books` and `write_book`:
the four timestamp arrays (indexed by agent id, `0` meaning "absent"), the
four counters, and the `writer_notification` flag (lines 92-130). -/
structure LibState where
  readers_queue : List Int
  writers_queue : List Int
  readers_in_library : List Int
  writers_in_library : List Int
  readers_queue_count : Int
  writers_queue_count : Int
  readers_in_library_count : Int
  writers_in_library_count : Int
  writer_notification : Bool
deriving Repr

/-- First critical section of `read_books` (r_w_1.c lines 396-405): the reader
moves from queue to library.  `ts` is the value of `get_timestamp()`. -/
def read_books_enter (reader_id : Nat) (ts : Int) (s : LibState) : LibState :=
  { s with
    readers_in_library := s.readers_in_library.set reader_id ts
    readers_queue := s.readers_queue.set reader_id 0
    readers_in_library_count := s.readers_in_library_count + 1
    readers_queue_count := s.readers_queue_count - 1 }

/-- Second critical section of `read_books` (r_w_1.c lines 409-418): the
reader moves back from library to queue. -/
def read_books_exit (reader_id : Nat) (ts : Int) (s : LibState) : LibState :=
  { s with
    readers_in_library := s.readers_in_library.set reader_id 0
    readers_queue := s.readers_queue.set reader_id ts
    readers_in_library_count := s.readers_in_library_count - 1
    readers_queue_count := s.readers_queue_count + 1 }

/-- First critical section of `write_book` (r_w_1.c lines 359-368): the
writer moves from queue to library. -/
def write_book_enter (writer_id : Nat) (ts : Int) (s : LibState) : LibState :=
  { s with
    writers_in_library := s.writers_in_library.set writer_id ts
    writers_queue := s.writers_queue.set writer_id 0
    writers_in_library_count := s.writers_in_library_count + 1
    writers_queue_count := s.writers_queue_count - 1 }

/-- Second critical section of `write_book` (r_w_1.c lines 372-382): the
writer moves back from library to queue and clears `writer_notification`. -/
def write_book_exit (writer_id : Nat) (ts : Int) (s : LibState) : LibState :=
  { s with
    writers_in_library := s.writers_in_library.set writer_id 0
    writers_queue := s.writers_queue.set writer_id ts
    writers_in_library_count := s.writers_in_library_count - 1
    writers_queue_count := s.writers_queue_count + 1
    writer_notification := false }

/-- Program counter of the single reader thread (r_w_1.c lines 292-302):
at the top of the loop and about to run the gate check (`idle`), past the
check with the mutex released but `read_books` not yet entered (`passed`),
inside the library (`inLib`), or blocked on `readers_cond` (`blocked`). -/
inductive RPC where
  | idle
  | passed
  | inLib
  | blocked
deriving DecidableEq, Repr

/-- Program counter of the single writer thread (r_w_1.c lines 311-321):
blocked on its condition variable (`blocked`), signalled and spinning on
`while (readers_in_library_count);` (`spin`), or inside the library
(`inLib`). -/
inductive WPC where
  | blocked
  | spin
  | inLib
deriving DecidableEq, Repr

/-- Global state of r_w_1.c specialised to one reader (id 0) and one writer
(id 0): the shared counters and gate, plus both thread program counters.
The timestamp arrays are irrelevant to occupancy and omitted; with a single
writer the librarian's scan always selects writer 0. -/
structure StateA where
  writer_notification : Bool
  readers_in_library_count : Int
  writers_in_library_count : Int
  readers_queue_count : Int
  writers_queue_count : Int
  rpc : RPC
  wpc : WPC
deriving DecidableEq, Repr

/-- Interleaving semantics of r_w_1.c with one reader and one writer.  Each
step is one of the code's mutex-protected critical sections or one of its
unprotected check-and-proceed fragments:
* `reader_check_pass` / `reader_check_block`: the reader's gate check
  (lines 295-299); after passing it the mutex is released and `read_books`
  has not started yet.
* `reader_enter` / `reader_leave`: the two critical sections of `read_books`
  (lines 396-418).
* `writer_enter`: the writer's `while (readers_in_library_count);` spin
  observing zero readers followed by the first critical section of
  `write_book` (lines 317-318, 359-368), with no other thread in between.
* `writer_leave`: the second critical section of `write_book` plus the
  `pthread_cond_broadcast(&readers_cond)` (lines 319, 372-382).
* `librarian_cycle`: the librarian body after its sleep (lines 332-343),
  setting the gate and signalling the (only) writer's condition variable.
-/
inductive StepA : StateA → StateA → Prop where
  | reader_check_pass (s : StateA) :
      s.rpc = RPC.idle → s.writer_notification = false →
      StepA s { s with rpc := RPC.passed }
  | reader_check_block (s : StateA) :
      s.rpc = RPC.idle → s.writer_notification = true →
      StepA s { s with rpc := RPC.blocked }
  | reader_enter (s : StateA) :
      s.rpc = RPC.passed →
      StepA s { s with rpc := RPC.inLib
                       readers_in_library_count := s.readers_in_library_count + 1
                       readers_queue_count := s.readers_queue_count - 1 }
  | reader_leave (s : StateA) :
      s.rpc = RPC.inLib →
      StepA s { s with rpc := RPC.idle
                       readers_in_library_count := s.readers_in_library_count - 1
                       readers_queue_count := s.readers_queue_count + 1 }
  | writer_enter (s : StateA) :
      s.wpc = WPC.spin → s.readers_in_library_count = 0 →
      StepA s { s with wpc := WPC.inLib
                       writers_in_library_count := s.writers_in_library_count + 1
                       writers_queue_count := s.writers_queue_count - 1 }
  | writer_leave (s : StateA) :
      s.wpc = WPC.inLib →
      StepA s { s with wpc := WPC.blocked
                       writers_in_library_count := s.writers_in_library_count - 1
                       writers_queue_count := s.writers_queue_count + 1
                       writer_notification := false
                       rpc := if s.rpc = RPC.blocked then RPC.passed else s.rpc }
  | librarian_cycle (s : StateA) :
      s.writers_in_library_count = 0 →
      StepA s { s with writer_notification := true
                       wpc := if s.wpc = WPC.blocked then WPC.spin else s.wpc }

/-- Initial state after `init_queue` (r_w_1.c lines 424-433): one reader and
one writer queued, library empty, gate clear, reader about to check the gate,
writer blocked on its condition variable. -/
def initA : StateA :=
  { writer_notification := false
    readers_in_library_count := 0
    writers_in_library_count := 0
    readers_queue_count := 1
    writers_queue_count := 1
    rpc := RPC.idle
    wpc := WPC.blocked }

/-- States of r_w_1.c (one reader, one writer) reachable from the initial
state under the interleaving semantics. -/
def ReachableA (s : StateA) : Prop :=
  Relation.ReflTransGen StepA initA s

end RW1

/-- Whitespace characters skipped by C `atoi` (`isspace`). -/
def isSpaceC (c : Char) : Bool :=
  c = ' ' || c = '\t' || c = '\n' || c = '\x0b' || c = '\x0c' || c = '\r'

/-- Decimal value of a digit string. -/
def digitsVal (l : List Char) : Int :=
  l.foldl (fun acc c => acc * 10 + ((c.toNat : Int) - ('0'.toNat : Int))) 0

/-- C `atoi` as used by both `args_interpreter`s: skip whitespace, read an
optional sign and a maximal run of digits, return 0 when no digits are
present.  Both sources pass values far below `INT_MAX`, so overflow does not
arise. -/
def atoi (s : String) : Int :=
  match s.data.dropWhile isSpaceC with
  | '-' :: rest => -(digitsVal (rest.takeWhile Char.isDigit))
  | '+' :: rest => digitsVal (rest.takeWhile Char.isDigit)
  | l => digitsVal (l.takeWhile Char.isDigit)

/-- The min/max normalisation both `args_interpreter`s apply to each duration
pair (r_w_1.c lines 492-496 etc.): `if (min > max) { temp = min; min = max;
max = temp; }`. -/
def swapPair (a b : Int) : Int × Int :=
  if a > b then (b, a) else (a, b)

namespace RW1

/-- The global configuration variables of r_w_1.c set by `args_interpreter`
(lines 76-155, 472-533). -/
structure Config where
  writers_count : Int
  readers_count : Int
  writers_queue_count : Int
  readers_queue_count : Int
  is_debug_run : Bool
  min_reading_time : Int
  max_reading_time : Int
  min_writing_time : Int
  max_writing_time : Int
  min_allow_read_time : Int
  max_allow_read_time : Int
deriving DecidableEq, Repr

/-- `args_interpreter` of r_w_1.c (lines 472-533).  `argv` is the full
argument vector including the program name, so `argc = argv.length`.
`Except.error ()` models printing the usage message and calling
`exit(EXIT_FAILURE)`, which happens before any coordinator state is built
(`main` calls `args_interpreter` before `variables_initializer` and
`init_queue`). -/
def args_interpreter (argv : List String) : Except Unit Config :=
  let argc := argv.length
  if argc < 3 then .error () else
  let base : Config :=
    { writers_count := atoi (argv.getD 1 "")
      readers_count := atoi (argv.getD 2 "")
      writers_queue_count := atoi (argv.getD 1 "")
      readers_queue_count := atoi (argv.getD 2 "")
      is_debug_run := false
      min_reading_time := 0
      max_reading_time := 5
      min_writing_time := 5
      max_writing_time := 15
      min_allow_read_time := 10
      max_allow_read_time := 20 }
  let step1 : Except Unit Config :=
    if argc > 3 then
      if argv.getD 3 "" = "-t" then
        if argc < 10 then .error ()
        else
          let r := swapPair (atoi (argv.getD 4 "")) (atoi (argv.getD 5 ""))
          let w := swapPair (atoi (argv.getD 6 "")) (atoi (argv.getD 7 ""))
          let a := swapPair (atoi (argv.getD 8 "")) (atoi (argv.getD 9 ""))
          .ok { base with
                min_reading_time := r.1, max_reading_time := r.2
                min_writing_time := w.1, max_writing_time := w.2
                min_allow_read_time := a.1, max_allow_read_time := a.2 }
      else if argv.getD 3 "" = "-debug" then
        .ok { base with is_debug_run := true }
      else .error ()
    else .ok base
  match step1 with
  | .error e => .error e
  | .ok c1 =>
    if argc = 11 then
      if argv.getD 10 "" = "-debug" then
        if argc > 11 then .error () else .ok { c1 with is_debug_run := true }
      else .error ()
    else
      if argc > 11 then .error () else .ok c1

end RW1

namespace RW2

/-- The global configuration variables of r_w_2.c set by `args_interpreter`
(lines 113-148, 589-641). -/
structure Config where
  writers_count : Int
  readers_count : Int
  is_debug_run : Bool
  min_reading_time : Int
  max_reading_time : Int
  min_writing_time : Int
  max_writing_time : Int
deriving DecidableEq, Repr

/-- `args_interpreter` of r_w_2.c (lines 589-641); same shape as the Policy A
interpreter but with only two duration pairs, so the `-t` form needs
`argc ≥ 8`, the trailing `-debug` sits at `argv[8]` when `argc = 9`, and
`argc > 9` is rejected. -/
def args_interpreter (argv : List String) : Except Unit Config :=
  let argc := argv.length
  if argc < 3 then .error () else
  let base : Config :=
    { writers_count := atoi (argv.getD 1 "")
      readers_count := atoi (argv.getD 2 "")
      is_debug_run := false
      min_reading_time := 0
      max_reading_time := 5
      min_writing_time := 5
      max_writing_time := 15 }
  let step1 : Except Unit Config :=
    if argc > 3 then
      if argv.getD 3 "" = "-t" then
        if argc < 8 then .error ()
        else
          let r := swapPair (atoi (argv.getD 4 "")) (atoi (argv.getD 5 ""))
          let w := swapPair (atoi (argv.getD 6 "")) (atoi (argv.getD 7 ""))
          .ok { base with
                min_reading_time := r.1, max_reading_time := r.2
                min_writing_time := w.1, max_writing_time := w.2 }
      else if argv.getD 3 "" = "-debug" then
        .ok { base with is_debug_run := true }
      else .error ()
    else .ok base
  match step1 with
  | .error e => .error e
  | .ok c1 =>
    if argc = 9 then
      if argv.getD 8 "" = "-debug" then
        if argc > 9 then .error () else .ok { c1 with is_debug_run := true }
      else .error ()
    else
      if argc > 9 then .error () else .ok c1

end RW2

/-!
## Theorems
-/

/-- C8: for all integers `min ≤ max` and any `rand()` result `r ≥ 0`, the
value `get_random(min, max)` computes, namely `r % (max - min + 1) + min`,
lies within `[min, max]` inclusive. -/
theorem get_random_in_bounds (r min max : Int) (hr : 0 ≤ r) (h : min ≤ max) :
    min ≤ get_random r min max ∧ get_random r min max ≤ max := by
  unfold get_random
  have hpos : 0 < max - min + 1 := by omega
  have h1 : 0 ≤ Int.tmod r (max - min + 1) := Int.tmod_nonneg _ hr
  have h2 : Int.tmod r (max - min + 1) < max - min + 1 := Int.tmod_lt_of_pos r hpos
  omega

/-- Witness for `get_random_in_bounds` at `r = 7`, `min = 2`, `max = 5`. -/
theorem get_random_in_bounds_witness :
    ((0 : Int) ≤ 7 ∧ (2 : Int) ≤ 5) ∧
      (2 ≤ get_random 7 2 5 ∧ get_random 7 2 5 ≤ 5) :=
  ⟨⟨by decide, by decide⟩, get_random_in_bounds 7 2 5 (by decide) (by decide)⟩

/-- C2: contrary to the claim, when the librarian cycle of r_w_1.c reaches
its selection step with zero waiting writers (no writer configured, so
`writers_queue` is empty) it still sets `writer_notification = 1` and still
signals `writers_conds[0]`, the condition variable of a writer that does not
exist.  The cycle is not a no-op and the gate is left set. -/
theorem librarian_gate_set_with_no_writers (now : Int) (gate : Bool) :
    RW1.librarianCycle now 0 gate [] = (true, some 0) := rfl

/-- C10: `leave_library(kind, id)` leaves the array unchanged when no entry
matches, and otherwise rewrites exactly the first entry matching both `kind`
and `id`, setting its `kind` to `NO_KIND` while keeping its `id` and
`timestamp` and every other entry intact. -/
theorem leave_library_frame :
    (∀ (k id : Int) (l : List RW2.presence),
      (∀ e ∈ l, ¬(e.kind = k ∧ e.id = id)) → RW2.leave_library k id l = l) ∧
    (∀ (k id : Int) (pre post : List RW2.presence) (e : RW2.presence),
      (∀ e2 ∈ pre, ¬(e2.kind = k ∧ e2.id = id)) → e.kind = k → e.id = id →
      RW2.leave_library k id (pre ++ e :: post)
        = pre ++ ⟨RW2.NO_KIND, e.id, e.timestamp⟩ :: post) := by
  constructor
  · intro k id l hl
    induction l with
    | nil => rfl
    | cons e rest ih =>
      rw [RW2.leave_library, if_neg (hl e (List.mem_cons_self e rest))]
      rw [ih (fun e2 h2 => hl e2 (List.mem_cons_of_mem e h2))]
  · intro k id pre post e hpre hk hid
    induction pre with
    | nil =>
      rw [List.nil_append, RW2.leave_library, if_pos ⟨hk, hid⟩, List.nil_append]
    | cons p rest ih =>
      rw [List.cons_append, RW2.leave_library,
        if_neg (hpre p (List.mem_cons_self p rest)), List.cons_append,
        ih (fun e2 h2 => hpre e2 (List.mem_cons_of_mem p h2))]

/-- Witness for `leave_library_frame`: in `[⟨R,3⟩, ⟨W,3⟩, ⟨W,3⟩]` removing
writer 3 blanks only the kind of the first writer entry, and removing a
writer absent from `[⟨R,3⟩]` changes nothing. -/
theorem leave_library_frame_witness :
    RW2.leave_library 2 3 [⟨1, 3, 5⟩, ⟨2, 3, 7⟩, ⟨2, 3, 9⟩]
        = [⟨1, 3, 5⟩, ⟨RW2.NO_KIND, 3, 7⟩, ⟨2, 3, 9⟩] ∧
      RW2.leave_library 2 3 [⟨1, 3, 5⟩] = [⟨1, 3, 5⟩] :=
  ⟨leave_library_frame.2 2 3 [⟨1, 3, 5⟩] [⟨2, 3, 9⟩] ⟨2, 3, 7⟩
      (by decide) (by decide) (by decide),
    leave_library_frame.1 2 3 [⟨1, 3, 5⟩] (by decide)⟩

/-- Invariant of the librarian's scan loop: starting from accumulator `acc`
and C index `i0`, the scan either keeps `acc` (when no remaining time beats
`acc.2`) or returns the first position in `l` holding the maximum remaining
time, which beats `acc.2` strictly. -/
theorem selectFrom_spec (now : Int) (l : List Int) (i0 : Nat) (acc : Nat × Int) :
    (RW1.selectFrom now l i0 acc = acc ∧
      ∀ m, m < l.length → now - l.getD m 0 ≤ acc.2) ∨
    (∃ k, k < l.length ∧
      RW1.selectFrom now l i0 acc = (i0 + k, now - l.getD k 0) ∧
      acc.2 < now - l.getD k 0 ∧
      (∀ m, m < l.length → now - l.getD m 0 ≤ now - l.getD k 0) ∧
      (∀ m, m < k → now - l.getD m 0 < now - l.getD k 0)) := by
  induction l generalizing i0 acc with
  | nil =>
    left
    exact ⟨rfl, fun m hm => by simp at hm⟩
  | cons t rest ih =>
    by_cases hc : now - t > acc.2
    · rw [RW1.selectFrom, if_pos hc]
      rcases ih (i0 + 1) (i0, now - t) with ⟨heq, hall⟩ | ⟨k, hk, heq, hlt, hmax, hstrict⟩
      · right
        refine ⟨0, by simp, by simpa using heq, by simpa using hc, ?_, ?_⟩
        · intro m hm
          cases m with
          | zero => simp
          | succ m2 =>
            simp only [List.getD_cons_succ, List.getD_cons_zero]
            exact hall m2 (by simpa using hm)
        · intro m hm
          omega
      · right
        refine ⟨k + 1, by simpa using hk, ?_, ?_, ?_, ?_⟩
        · simp only [List.getD_cons_succ]
          rw [show i0 + (k + 1) = i0 + 1 + k from by omega]
          exact heq
        · simp only [List.getD_cons_succ]
          omega
        · intro m hm
          cases m with
          | zero => simp only [List.getD_cons_succ, List.getD_cons_zero]; omega
          | succ m2 =>
            simp only [List.getD_cons_succ]
            exact hmax m2 (by simpa using hm)
        · intro m hm
          cases m with
          | zero => simp only [List.getD_cons_succ, List.getD_cons_zero]; omega
          | succ m2 =>
            simp only [List.getD_cons_succ]
            exact hstrict m2 (by omega)
    · rw [RW1.selectFrom, if_neg hc]
      rcases ih (i0 + 1) acc with ⟨heq, hall⟩ | ⟨k, hk, heq, hlt, hmax, hstrict⟩
      · left
        refine ⟨heq, ?_⟩
        intro m hm
        cases m with
        | zero => simp only [List.getD_cons_zero]; omega
        | succ m2 =>
          simp only [List.getD_cons_succ]
          exact hall m2 (by simpa using hm)
      · right
        refine ⟨k + 1, by simpa using hk, ?_, ?_, ?_, ?_⟩
        · simp only [List.getD_cons_succ]
          rw [show i0 + (k + 1) = i0 + 1 + k from by omega]
          exact heq
        · simp only [List.getD_cons_succ]
          omega
        · intro m hm
          cases m with
          | zero => simp only [List.getD_cons_succ, List.getD_cons_zero]; omega
          | succ m2 =>
            simp only [List.getD_cons_succ]
            exact hmax m2 (by simpa using hm)
        · intro m hm
          cases m with
          | zero => simp only [List.getD_cons_succ, List.getD_cons_zero]; omega
          | succ m2 =>
            simp only [List.getD_cons_succ]
            exact hstrict m2 (by omega)

/-- C5: whenever the librarian cycle of r_w_1.c reaches its selection step
(no writer in the library) and the writers all have valid wait timestamps
(`wait_since ≤ now`, at least one writer configured), the cycle signals
exactly one writer id, and that id is the waiting writer with maximum
`now - wait_since`, ties broken by lowest id. -/
theorem librarian_selects_longest_waiter (now : Int) (q : List Int) (gate : Bool)
    (h1 : 0 < q.length) (h2 : ∀ x ∈ q, x ≤ now) :
    ∃ j, (RW1.librarianCycle now 0 gate q).2 = some j ∧ RW1.isLongestWaiter now q j := by
  have hcyc : (RW1.librarianCycle now 0 gate q).2 = some (RW1.selectMaxWaiter now q).1 := by
    simp [RW1.librarianCycle]
  rcases selectFrom_spec now q 0 (0, 0) with ⟨heq, hall⟩ | ⟨k, hk, heq, _hlt, hmax, hstrict⟩
  · refine ⟨(RW1.selectMaxWaiter now q).1, hcyc, ?_⟩
    have hsel : (RW1.selectMaxWaiter now q).1 = 0 := by
      rw [show RW1.selectMaxWaiter now q = (0, 0) from heq]
    rw [hsel]
    have hnn : 0 ≤ now - q.getD 0 0 := by
      have hmem : q.getD 0 0 ∈ q := by
        have := List.getD_eq_getElem q 0 h1
        rw [this]
        exact q.getElem_mem h1
      have := h2 _ hmem
      omega
    exact ⟨h1, fun m hm => by have := hall m hm; omega, fun m hm => by omega⟩
  · refine ⟨(RW1.selectMaxWaiter now q).1, hcyc, ?_⟩
    have hsel : (RW1.selectMaxWaiter now q).1 = k := by
      rw [show RW1.selectMaxWaiter now q = (0 + k, now - q.getD k 0) from heq]
      simp
    rw [hsel]
    exact ⟨hk, hmax, hstrict⟩

/-- Witness for `librarian_selects_longest_waiter` at `now = 10`,
`writers_queue = [3, 1, 1, 7]`: writers 1 and 2 tie at waiting time 9, so
writer 1 is selected. -/
theorem librarian_selects_longest_waiter_witness :
    (0 < ([3, 1, 1, 7] : List Int).length ∧ ∀ x ∈ ([3, 1, 1, 7] : List Int), x ≤ 10) ∧
      ∃ j, (RW1.librarianCycle 10 0 false [3, 1, 1, 7]).2 = some j ∧
        RW1.isLongestWaiter 10 [3, 1, 1, 7] j :=
  ⟨⟨by decide, by decide⟩,
    librarian_selects_longest_waiter 10 [3, 1, 1, 7] false (by decide) (by decide)⟩

/-- The temp-variable swap in both `args_interpreter`s establishes
`min ≤ max`. -/
theorem swapPair_le (a b : Int) : (swapPair a b).1 ≤ (swapPair a b).2 := by
  unfold swapPair
  split <;> omega

/-- C6: every duration pair a successful argument parse produces satisfies
`min ≤ max` — a supplied pair with `min > max` is swapped before use, both in
r_w_1.c (reading, writing and window pairs) and in r_w_2.c (reading and
writing pairs) — and on the example `-t 10 5 10 5 10 5` the effective bounds
are `min = 5, max = 10` for every pair. -/
theorem args_normalize_bounds :
    (∀ (argv : List String) (c : RW1.Config), RW1.args_interpreter argv = .ok c →
      c.min_reading_time ≤ c.max_reading_time ∧ c.min_writing_time ≤ c.max_writing_time ∧
        c.min_allow_read_time ≤ c.max_allow_read_time) ∧
    (∀ (argv : List String) (c : RW2.Config), RW2.args_interpreter argv = .ok c →
      c.min_reading_time ≤ c.max_reading_time ∧ c.min_writing_time ≤ c.max_writing_time) ∧
    RW1.args_interpreter ["ReadersAndWriters1", "1", "1", "-t", "10", "5", "10", "5", "10", "5"]
      = .ok ⟨1, 1, 1, 1, false, 5, 10, 5, 10, 5, 10⟩ ∧
    RW2.args_interpreter ["ReadersAndWriters2", "1", "1", "-t", "10", "5", "10", "5"]
      = .ok ⟨1, 1, false, 5, 10, 5, 10⟩ := by
  refine ⟨?_, ?_, rfl, rfl⟩
  · intro argv c h
    simp only [RW1.args_interpreter] at h
    split at h
    · exact absurd h (by simp)
    · split at h
      · exact absurd h (by simp)
      · rename_i c1 heq
        have hc1 : c1.min_reading_time ≤ c1.max_reading_time ∧
            c1.min_writing_time ≤ c1.max_writing_time ∧
            c1.min_allow_read_time ≤ c1.max_allow_read_time := by
          split at heq
          · split at heq
            · split at heq
              · exact absurd heq (by simp)
              · injection heq with h2
                subst h2
                exact ⟨swapPair_le _ _, swapPair_le _ _, swapPair_le _ _⟩
            · split at heq
              · injection heq with h2
                subst h2
                exact ⟨by norm_num, by norm_num, by norm_num⟩
              · exact absurd heq (by simp)
          · injection heq with h2
            subst h2
            exact ⟨by norm_num, by norm_num, by norm_num⟩
        split at h
        · split at h
          · split at h
            · exact absurd h (by simp)
            · injection h with h2
              subst h2
              exact hc1
          · exact absurd h (by simp)
        · split at h
          · exact absurd h (by simp)
          · injection h with h2
            subst h2
            exact hc1
  · intro argv c h
    simp only [RW2.args_interpreter] at h
    split at h
    · exact absurd h (by simp)
    · split at h
      · exact absurd h (by simp)
      · rename_i c1 heq
        have hc1 : c1.min_reading_time ≤ c1.max_reading_time ∧
            c1.min_writing_time ≤ c1.max_writing_time := by
          split at heq
          · split at heq
            · split at heq
              · exact absurd heq (by simp)
              · injection heq with h2
                subst h2
                exact ⟨swapPair_le _ _, swapPair_le _ _⟩
            · split at heq
              · injection heq with h2
                subst h2
                exact ⟨by norm_num, by norm_num⟩
              · exact absurd heq (by simp)
          · injection heq with h2
            subst h2
            exact ⟨by norm_num, by norm_num⟩
        split at h
        · split at h
          · split at h
            · exact absurd h (by simp)
            · injection h with h2
              subst h2
              exact hc1
          · exact absurd h (by simp)
        · split at h
          · exact absurd h (by simp)
          · injection h with h2
            subst h2
            exact hc1

/-- Witness for `args_normalize_bounds` on a parse with every pair
inverted. -/
theorem args_normalize_bounds_witness :
    (RW1.args_interpreter ["p", "2", "3", "-t", "9", "4", "8", "2", "6", "1"]
        = .ok ⟨2, 3, 2, 3, false, 4, 9, 2, 8, 1, 6⟩) ∧
      ((4 : Int) ≤ 9 ∧ (2 : Int) ≤ 8 ∧ (1 : Int) ≤ 6) :=
  ⟨rfl, args_normalize_bounds.1 ["p", "2", "3", "-t", "9", "4", "8", "2", "6", "1"]
    ⟨2, 3, 2, 3, false, 4, 9, 2, 8, 1, 6⟩ rfl⟩

/-- C7 counterexample: `./ReaderAndWriters1 foo bar` has unparsable numeric
arguments, yet `args_interpreter` does not print usage and exit: `atoi`
silently converts both to 0 and the parse succeeds, after which `main`
constructs the coordinator state with zero writers and zero readers. -/
theorem args_unparsable_accepted :
    RW1.args_interpreter ["ReaderAndWriters1", "foo", "bar"]
        = .ok ⟨0, 0, 0, 0, false, 0, 5, 5, 15, 10, 20⟩ ∧
      RW2.args_interpreter ["ReaderAndWriters2", "foo", "bar"]
        = .ok ⟨0, 0, false, 0, 5, 5, 15⟩ :=
  ⟨rfl, rfl⟩

/-- C7 amended: both `args_interpreter`s print the usage message and exit
with `EXIT_FAILURE` — before any coordinator state is constructed — for
these malformed shapes: fewer than two positional arguments (`argc < 3`);
a fourth argument (`argv[3]`) that is neither `-t` nor `-debug`; `-t` with
fewer than the required number of values (`argc < 10` in r_w_1.c,
`argc < 8` in r_w_2.c); a final argument other than `-debug` when the
argument count matches the full `-t … -debug` form (`argc = 11` in r_w_1.c,
`argc = 9` in r_w_2.c); or more arguments than that form allows.  Unknown
flags in any other position are silently ignored (`1 1 -debug -x` is
accepted with debug mode on), and unparsable numeric arguments are not
rejected (`atoi` maps them to 0). -/
theorem args_validation_amended :
    (∀ argv : List String, argv.length < 3 → RW1.args_interpreter argv = .error ()) ∧
    (∀ argv : List String, 3 < argv.length → argv.getD 3 "" ≠ "-t" →
      argv.getD 3 "" ≠ "-debug" → RW1.args_interpreter argv = .error ()) ∧
    (∀ argv : List String, 3 < argv.length → argv.getD 3 "" = "-t" →
      argv.length < 10 → RW1.args_interpreter argv = .error ()) ∧
    (∀ argv : List String, argv.length = 11 → argv.getD 10 "" ≠ "-debug" →
      RW1.args_interpreter argv = .error ()) ∧
    (∀ argv : List String, 11 < argv.length → RW1.args_interpreter argv = .error ()) ∧
    RW1.args_interpreter ["p", "1", "1", "-debug", "-x"]
      = .ok ⟨1, 1, 1, 1, true, 0, 5, 5, 15, 10, 20⟩ ∧
    (∀ argv : List String, argv.length < 3 → RW2.args_interpreter argv = .error ()) ∧
    (∀ argv : List String, 3 < argv.length → argv.getD 3 "" ≠ "-t" →
      argv.getD 3 "" ≠ "-debug" → RW2.args_interpreter argv = .error ()) ∧
    (∀ argv : List String, 3 < argv.length → argv.getD 3 "" = "-t" →
      argv.length < 8 → RW2.args_interpreter argv = .error ()) ∧
    (∀ argv : List String, argv.length = 9 → argv.getD 8 "" ≠ "-debug" →
      RW2.args_interpreter argv = .error ()) ∧
    (∀ argv : List String, 9 < argv.length → RW2.args_interpreter argv = .error ()) ∧
    RW2.args_interpreter ["p", "1", "1", "-debug", "-x"]
      = .ok ⟨1, 1, true, 0, 5, 5, 15⟩ := by
  refine ⟨?_, ?_, ?_, ?_, ?_, rfl, ?_, ?_, ?_, ?_, ?_, rfl⟩
  · intro argv h
    simp [RW1.args_interpreter, h]
  · intro argv h1 h2 h3
    rw [List.getD_eq_getElem argv "" h1] at h2 h3
    simp [RW1.args_interpreter, h1, h2, h3, Nat.not_lt.mpr (by omega : 3 ≤ argv.length)]
  · intro argv h1 ht h10
    simp only [RW1.args_interpreter]
    rw [if_neg (by omega : ¬argv.length < 3),
      if_pos (by omega : argv.length > 3), if_pos ht, if_pos h10]
  · intro argv h11 hflag
    simp only [RW1.args_interpreter]
    rw [if_neg (by omega : ¬argv.length < 3)]
    split
    · rfl
    · rw [if_pos h11, if_neg hflag]
  · intro argv h
    simp only [RW1.args_interpreter]
    rw [if_neg (by omega : ¬argv.length < 3)]
    split
    · rfl
    · rw [if_neg (by omega : ¬argv.length = 11), if_pos h]
  · intro argv h
    simp [RW2.args_interpreter, h]
  · intro argv h1 h2 h3
    rw [List.getD_eq_getElem argv "" h1] at h2 h3
    simp [RW2.args_interpreter, h1, h2, h3, Nat.not_lt.mpr (by omega : 3 ≤ argv.length)]
  · intro argv h1 ht h8
    simp only [RW2.args_interpreter]
    rw [if_neg (by omega : ¬argv.length < 3),
      if_pos (by omega : argv.length > 3), if_pos ht, if_pos h8]
  · intro argv h9 hflag
    simp only [RW2.args_interpreter]
    rw [if_neg (by omega : ¬argv.length < 3)]
    split
    · rfl
    · rw [if_pos h9, if_neg hflag]
  · intro argv h
    simp only [RW2.args_interpreter]
    rw [if_neg (by omega : ¬argv.length < 3)]
    split
    · rfl
    · rw [if_neg (by omega : ¬argv.length = 9), if_pos h]

/-- Witness for `args_validation_amended`: concrete command lines for every
rejected shape — too few arguments, an unknown flag in the option position,
`-t` with a missing value, an unknown flag in the trailing slot of the full
form, and too many arguments — under both policies. -/
theorem args_validation_amended_witness :
    (["p"].length < 3 ∧ RW1.args_interpreter ["p"] = .error ()) ∧
      (3 < ["p", "1", "1", "-x"].length ∧
        RW1.args_interpreter ["p", "1", "1", "-x"] = .error ()) ∧
      (3 < ["p", "1", "1", "-t", "5"].length ∧ ["p", "1", "1", "-t", "5"].getD 3 "" = "-t" ∧
        ["p", "1", "1", "-t", "5"].length < 10 ∧
        RW1.args_interpreter ["p", "1", "1", "-t", "5"] = .error ()) ∧
      (["p", "1", "1", "-t", "0", "1", "2", "3", "4", "5", "-x"].length = 11 ∧
        RW1.args_interpreter ["p", "1", "1", "-t", "0", "1", "2", "3", "4", "5", "-x"]
          = .error ()) ∧
      (11 < ["p", "1", "1", "-t", "0", "1", "2", "3", "4", "5", "-debug", "zz"].length ∧
        RW1.args_interpreter ["p", "1", "1", "-t", "0", "1", "2", "3", "4", "5", "-debug", "zz"]
          = .error ()) ∧
      (["p"].length < 3 ∧ RW2.args_interpreter ["p"] = .error ()) ∧
      (3 < ["p", "1", "1", "-x"].length ∧
        RW2.args_interpreter ["p", "1", "1", "-x"] = .error ()) ∧
      (["p", "1", "1", "-t", "5"].length < 8 ∧
        RW2.args_interpreter ["p", "1", "1", "-t", "5"] = .error ()) ∧
      (["p", "1", "1", "-t", "0", "1", "2", "3", "-x"].length = 9 ∧
        RW2.args_interpreter ["p", "1", "1", "-t", "0", "1", "2", "3", "-x"] = .error ()) ∧
      (9 < ["p", "1", "1", "-t", "0", "1", "2", "3", "-debug", "zz"].length ∧
        RW2.args_interpreter ["p", "1", "1", "-t", "0", "1", "2", "3", "-debug", "zz"]
          = .error ()) := by
  obtain ⟨a1, a2, a3, a4, a5, -, b1, b2, b3, b4, b5, -⟩ := args_validation_amended
  exact ⟨⟨by decide, a1 ["p"] (by decide)⟩,
    ⟨by decide, a2 ["p", "1", "1", "-x"] (by decide) (by decide) (by decide)⟩,
    ⟨by decide, by decide, by decide,
      a3 ["p", "1", "1", "-t", "5"] (by decide) (by decide) (by decide)⟩,
    ⟨by decide, a4 ["p", "1", "1", "-t", "0", "1", "2", "3", "4", "5", "-x"]
      (by decide) (by decide)⟩,
    ⟨by decide, a5 ["p", "1", "1", "-t", "0", "1", "2", "3", "4", "5", "-debug", "zz"]
      (by decide)⟩,
    ⟨by decide, b1 ["p"] (by decide)⟩,
    ⟨by decide, b2 ["p", "1", "1", "-x"] (by decide) (by decide) (by decide)⟩,
    ⟨by decide, b3 ["p", "1", "1", "-t", "5"] (by decide) (by decide) (by decide)⟩,
    ⟨by decide, b4 ["p", "1", "1", "-t", "0", "1", "2", "3", "-x"] (by decide) (by decide)⟩,
    ⟨by decide, b5 ["p", "1", "1", "-t", "0", "1", "2", "3", "-debug", "zz"] (by decide)⟩⟩

/-- Every record `init_queue` writes into the queue has a real kind. -/
theorem initLayout_kind_ne (R W : Nat) (ts : Nat → Int) :
    ∀ e ∈ RW2.initLayout R W ts, e.kind ≠ RW2.NO_KIND := by
  intro e he
  simp only [RW2.initLayout, List.mem_append, List.mem_map, List.mem_range] at he
  rcases he with ⟨i, _, rfl⟩ | ⟨j, _, rfl⟩ <;>
    simp [RW2.READER_KIND, RW2.WRITER_KIND, RW2.NO_KIND]

/-- The expected layout has one record per configured agent. -/
theorem initLayout_length (R W : Nat) (ts : Nat → Int) :
    (RW2.initLayout R W ts).length = R + W := by
  simp [RW2.initLayout]

/-- Record `i` of the expected layout. -/
theorem initLayout_getElem (R W : Nat) (ts : Nat → Int) (i : Nat) (h : i < R + W) :
    (RW2.initLayout R W ts)[i]?
      = some (if i < R then ⟨RW2.READER_KIND, (i : Int), ts i⟩
              else ⟨RW2.WRITER_KIND, (i : Int) - (R : Int), ts i⟩) := by
  unfold RW2.initLayout
  by_cases hiR : i < R
  · rw [List.getElem?_append_left (by rw [List.length_map, List.length_range]; exact hiR),
      List.getElem?_map, List.getElem?_range hiR]
    simp [hiR]
  · have hR : R ≤ i := Nat.le_of_not_lt hiR
    rw [List.getElem?_append_right (by rw [List.length_map, List.length_range]; exact hR)]
    simp only [List.length_map, List.length_range, List.getElem?_map]
    rw [List.getElem?_range (by omega)]
    have h1 : ((i - R : Nat) : Int) = (i : Int) - (R : Int) := Nat.cast_sub hR
    have h2 : R + (i - R) = i := by omega
    simp [h1, h2, hiR]

/-- `get_to_queue` on a prefix of occupied slots followed by free slots fills
the first free slot. -/
theorem get_to_queue_fill (k id ts : Int) (pre : List RW2.presence) (m : Nat)
    (hpre : ∀ e ∈ pre, e.kind ≠ RW2.NO_KIND) (hm : 0 < m) :
    RW2.get_to_queue k id ts (pre ++ List.replicate m RW2.zeroP)
      = some (pre ++ ⟨k, id, ts⟩ :: List.replicate (m - 1) RW2.zeroP) := by
  induction pre with
  | nil =>
    cases m with
    | zero => omega
    | succ m2 => simp [List.replicate_succ, RW2.get_to_queue, RW2.zeroP, RW2.NO_KIND]
  | cons p pre ih =>
    rw [List.cons_append, RW2.get_to_queue,
      if_neg (hpre p (List.mem_cons_self _ _)),
      ih (fun e he => hpre e (List.mem_cons_of_mem _ he)), List.cons_append]
    rfl

/-- Clearing the kind of a zero record is a no-op. -/
theorem setKind_replicate (n i : Nat) :
    RW2.setKind (List.replicate n RW2.zeroP) i RW2.NO_KIND = List.replicate n RW2.zeroP := by
  unfold RW2.setKind
  cases hg : (List.replicate n RW2.zeroP).get? i with
  | none => rfl
  | some e =>
    have he : e = RW2.zeroP := by
      have := List.get?_mem hg
      simpa using List.eq_of_mem_replicate this
    subst he
    exact List.set_replicate_self

/-- Loop invariant of `init_queue`: after the first `i` iterations the queue
holds the first `i` records of the expected layout followed by free slots,
and the remaining iterations complete the layout. -/
theorem initQueueGo_spec (R W : Nat) (ts : Nat → Int) (i : Nat) (hi : i ≤ R + W) :
    RW2.initQueueGo R W ts i
      ((RW2.initLayout R W ts).take i ++ List.replicate (R + W - i) RW2.zeroP,
        List.replicate (R + W) RW2.zeroP)
      = some (RW2.initLayout R W ts, List.replicate (R + W) RW2.zeroP) := by
  generalize hd : R + W - i = n
  induction n generalizing i with
  | zero =>
    have hieq : i = R + W := by omega
    subst hieq
    unfold RW2.initQueueGo
    rw [dif_neg (by omega), List.take_of_length_le (le_of_eq (initLayout_length R W ts))]
    simp
  | succ n ih =>
    have hlt : i < R + W := by omega
    have hpre : ∀ e ∈ (RW2.initLayout R W ts).take i, e.kind ≠ RW2.NO_KIND :=
      fun e he => initLayout_kind_ne R W ts e (List.mem_of_mem_take he)
    unfold RW2.initQueueGo
    rw [dif_pos hlt]
    dsimp only
    by_cases hiR : i < R
    · rw [if_pos hiR, if_pos hiR, get_to_queue_fill _ _ _ _ (n + 1) hpre (by omega)]
      dsimp only
      rw [setKind_replicate]
      have htake : (RW2.initLayout R W ts).take i
            ++ (⟨RW2.READER_KIND, (i : Int), ts i⟩ : RW2.presence)
              :: List.replicate (n + 1 - 1) RW2.zeroP
          = (RW2.initLayout R W ts).take (i + 1) ++ List.replicate n RW2.zeroP := by
        rw [List.take_succ, initLayout_getElem R W ts i hlt, if_pos hiR]
        simp
      rw [htake]
      exact ih (i + 1) (by omega) (by omega)
    · rw [if_neg hiR, if_neg hiR, get_to_queue_fill _ _ _ _ (n + 1) hpre (by omega)]
      dsimp only
      rw [setKind_replicate]
      have htake : (RW2.initLayout R W ts).take i
            ++ (⟨RW2.WRITER_KIND, (i : Int) - (R : Int), ts i⟩ : RW2.presence)
              :: List.replicate (n + 1 - 1) RW2.zeroP
          = (RW2.initLayout R W ts).take (i + 1) ++ List.replicate n RW2.zeroP := by
        rw [List.take_succ, initLayout_getElem R W ts i hlt, if_neg hiR]
        simp
      rw [htake]
      exact ih (i + 1) (by omega) (by omega)

/-- C9: for every configured reader count `R` and writer count `W`,
`init_queue` produces the queue holding all `R` readers in ascending id order
followed by all `W` writers in ascending id order, with every in-library slot
empty; in particular with 2 readers and 1 writer the initial queue is
`[R0, R1, W0]`. -/
theorem init_queue_layout :
    (∀ (R W : Nat) (ts : Nat → Int),
      RW2.init_queue R W ts
        = some (RW2.initLayout R W ts, List.replicate (R + W) RW2.zeroP)) ∧
    RW2.init_queue 2 1 (fun _ => 0)
      = some ([⟨RW2.READER_KIND, 0, 0⟩, ⟨RW2.READER_KIND, 1, 0⟩, ⟨RW2.WRITER_KIND, 0, 0⟩],
          List.replicate 3 RW2.zeroP) := by
  have hgen : ∀ (R W : Nat) (ts : Nat → Int),
      RW2.init_queue R W ts
        = some (RW2.initLayout R W ts, List.replicate (R + W) RW2.zeroP) := by
    intro R W ts
    have h := initQueueGo_spec R W ts 0 (by omega)
    simpa [RW2.init_queue] using h
  refine ⟨hgen, ?_⟩
  rw [hgen 2 1 (fun _ => 0)]
  rfl

/-- Unfolding of `countKind` over a cons cell. -/
theorem countKind_cons (k : Int) (e : RW2.presence) (l : List RW2.presence) :
    RW2.countKind k (e :: l) = (if e.kind = k then 1 else 0) + RW2.countKind k l := by
  simp only [RW2.countKind, List.filter_cons]
  by_cases h : e.kind = k
  · simp [h]
    omega
  · simp [h]

/-- Overwriting entry `i` trades its kind for the new record's kind in the
count. -/
theorem countKind_set (κ : Int) (q : List RW2.presence) (i : Nat) (x : RW2.presence)
    (hi : i < q.length) :
    RW2.countKind κ (q.set i x) + (if (q.getD i RW2.zeroP).kind = κ then 1 else 0)
      = RW2.countKind κ q + (if x.kind = κ then 1 else 0) := by
  induction q generalizing i with
  | nil => simp at hi
  | cons e rest ih =>
    cases i with
    | zero =>
      simp only [List.set_cons_zero, List.getD_cons_zero, countKind_cons]
      omega
    | succ j =>
      simp only [List.set_cons_succ, List.getD_cons_succ, countKind_cons]
      have := ih j (by simpa using hi)
      omega

/-- `get_to_library` adds exactly one record of the inserted kind (it
overwrites a `NO_KIND` slot). -/
theorem get_to_library_count (k id ts : Int) (lib lib2 : List RW2.presence)
    (h : RW2.get_to_library k id ts lib = some lib2) (κ : Int) (hκ : κ ≠ RW2.NO_KIND) :
    RW2.countKind κ lib2 = RW2.countKind κ lib + (if k = κ then 1 else 0) := by
  induction lib generalizing lib2 with
  | nil => simp [RW2.get_to_library] at h
  | cons e rest ih =>
    rw [RW2.get_to_library] at h
    by_cases he : e.kind = RW2.NO_KIND
    · rw [if_pos he] at h
      injection h with h2
      subst h2
      simp only [countKind_cons]
      rw [if_neg (show ¬(e.kind = κ) from fun hh => hκ (he ▸ hh).symm)]
      omega
    · rw [if_neg he] at h
      cases hg : RW2.get_to_library k id ts rest with
      | none => rw [hg] at h; simp at h
      | some l2 =>
        rw [hg] at h
        simp only [Option.map_some'] at h
        injection h with h2
        subst h2
        simp only [countKind_cons]
        have := ih l2 hg
        omega

/-- `get_to_queue` adds exactly one record of the inserted kind. -/
theorem get_to_queue_count (k id ts : Int) (q q2 : List RW2.presence)
    (h : RW2.get_to_queue k id ts q = some q2) (κ : Int) (hκ : κ ≠ RW2.NO_KIND) :
    RW2.countKind κ q2 = RW2.countKind κ q + (if k = κ then 1 else 0) := by
  induction q generalizing q2 with
  | nil => simp [RW2.get_to_queue] at h
  | cons e rest ih =>
    rw [RW2.get_to_queue] at h
    by_cases he : e.kind = RW2.NO_KIND
    · rw [if_pos he] at h
      injection h with h2
      subst h2
      simp only [countKind_cons]
      rw [if_neg (show ¬(e.kind = κ) from fun hh => hκ (he ▸ hh).symm)]
      omega
    · rw [if_neg he] at h
      cases hg : RW2.get_to_queue k id ts rest with
      | none => rw [hg] at h; simp at h
      | some l2 =>
        rw [hg] at h
        simp only [Option.map_some'] at h
        injection h with h2
        subst h2
        simp only [countKind_cons]
        have := ih l2 hg
        omega

/-- `leave_library` removes exactly one record of the removed kind when the
agent is present. -/
theorem leave_library_count (k id : Int) (lib : List RW2.presence)
    (h : ∃ e ∈ lib, e.kind = k ∧ e.id = id) (κ : Int) (hκ : κ ≠ RW2.NO_KIND) :
    RW2.countKind κ (RW2.leave_library k id lib) + (if k = κ then 1 else 0)
      = RW2.countKind κ lib := by
  induction lib with
  | nil => simp at h
  | cons e rest ih =>
    rw [RW2.leave_library]
    by_cases hm : e.kind = k ∧ e.id = id
    · rw [if_pos hm]
      simp only [countKind_cons]
      rw [if_neg (show ¬(RW2.NO_KIND = κ) from fun hh => hκ hh.symm), ← hm.1]
      omega
    · rw [if_neg hm]
      obtain ⟨w, hw, hwk⟩ := h
      have hw2 : w ∈ rest := by
        rcases List.mem_cons.mp hw with h1 | h1
        · exact absurd (h1 ▸ hwk) hm
        · exact h1
      simp only [countKind_cons]
      have := ih ⟨w, hw2, hwk⟩
      omega

/-- `leave_queue` removes exactly one record of the head's kind: the loop
shifts the prefix down one slot and blanks the slot it stops at. -/
theorem leaveQueueGo_count (κ : Int) (hκ : κ ≠ RW2.NO_KIND) :
    ∀ (fuel : Nat) (q q2 : List RW2.presence) (i : Nat),
      RW2.leaveQueueGo q i fuel = some q2 →
      RW2.countKind κ q2 + (if (q.getD i RW2.zeroP).kind = κ then 1 else 0)
        = RW2.countKind κ q := by
  intro fuel
  induction fuel with
  | zero =>
    intro q q2 i h
    simp [RW2.leaveQueueGo] at h
  | succ fuel ih =>
    intro q q2 i h
    rw [RW2.leaveQueueGo] at h
    cases hg : q.get? (i + 1) with
    | none =>
      rw [hg] at h
      simp at h
    | some e =>
      rw [hg] at h
      have hi1 : i + 1 < q.length := by
        rcases Nat.lt_or_ge (i + 1) q.length with h1 | h1
        · exact h1
        · rw [List.get?_eq_none.mpr h1] at hg
          exact Option.noConfusion hg
      dsimp only at h
      by_cases hc : e.kind ≠ RW2.NO_KIND ∧ i < 20
      · rw [if_pos hc] at h
        have hrec := ih (q.set i e) q2 (i + 1) h
        have hset : (q.set i e).getD (i + 1) RW2.zeroP = e := by
          rw [List.getD_eq_get?, List.get?_set_ne e q (by omega), hg]
          rfl
        rw [hset] at hrec
        have hcs := countKind_set κ q i e (by omega)
        omega
      · rw [if_neg hc] at h
        injection h with h2
        subst h2
        cases hgi : q.get? i with
        | none =>
          rw [List.get?_eq_none] at hgi
          omega
        | some e0 =>
          have hsk : RW2.setKind q i RW2.NO_KIND
              = q.set i ⟨RW2.NO_KIND, e0.id, e0.timestamp⟩ := by
            unfold RW2.setKind
            rw [hgi]
          rw [hsk]
          have hcs := countKind_set κ q i ⟨RW2.NO_KIND, e0.id, e0.timestamp⟩ (by omega)
          dsimp only at hcs
          rw [if_neg (show ¬(RW2.NO_KIND = κ) from fun hh => hκ hh.symm)] at hcs
          omega

/-- C3 counterexample: `leave_queue`, one of the operations the claim lists,
does not by itself preserve the per-kind queued + in-library sum: with one
queued reader and an empty library the reader sum drops from 1 to 0 (the
record is removed from the queue without appearing in the library). -/
theorem conservation_cex :
    RW2.leave_queue [⟨RW2.READER_KIND, 0, 3⟩, RW2.zeroP]
        = some [⟨RW2.NO_KIND, 0, 3⟩, RW2.zeroP] ∧
      RW2.countKind RW2.READER_KIND [⟨RW2.READER_KIND, 0, 3⟩, RW2.zeroP]
        + RW2.countKind RW2.READER_KIND [RW2.zeroP, RW2.zeroP] = 1 ∧
      RW2.countKind RW2.READER_KIND [⟨RW2.NO_KIND, 0, 3⟩, RW2.zeroP]
        + RW2.countKind RW2.READER_KIND [RW2.zeroP, RW2.zeroP] = 0 := by
  refine ⟨rfl, by decide, by decide⟩

/-- C3 (amended): the moves performed inside one critical section preserve,
for each kind, the sum of that kind's queued and in-library agents.  In
Policy A each of the four `read_books` / `write_book` half-operations
preserves both sums outright.  In Policy B the entry move
(`leave_queue` then `get_to_library`) preserves both sums provided the queue
head is the entering agent's kind, and the exit move (`leave_library` then
`get_to_queue`) preserves both sums provided the agent is present in the
library; the individual primitives move exactly one record each, so they do
not preserve the sums alone. -/
theorem conservation_amended :
    (∀ (n : Nat) (ts : Int) (s : RW1.LibState),
      ((RW1.read_books_enter n ts s).readers_queue_count
          + (RW1.read_books_enter n ts s).readers_in_library_count
        = s.readers_queue_count + s.readers_in_library_count) ∧
      ((RW1.read_books_enter n ts s).writers_queue_count
          + (RW1.read_books_enter n ts s).writers_in_library_count
        = s.writers_queue_count + s.writers_in_library_count) ∧
      ((RW1.read_books_exit n ts s).readers_queue_count
          + (RW1.read_books_exit n ts s).readers_in_library_count
        = s.readers_queue_count + s.readers_in_library_count) ∧
      ((RW1.read_books_exit n ts s).writers_queue_count
          + (RW1.read_books_exit n ts s).writers_in_library_count
        = s.writers_queue_count + s.writers_in_library_count) ∧
      ((RW1.write_book_enter n ts s).readers_queue_count
          + (RW1.write_book_enter n ts s).readers_in_library_count
        = s.readers_queue_count + s.readers_in_library_count) ∧
      ((RW1.write_book_enter n ts s).writers_queue_count
          + (RW1.write_book_enter n ts s).writers_in_library_count
        = s.writers_queue_count + s.writers_in_library_count) ∧
      ((RW1.write_book_exit n ts s).readers_queue_count
          + (RW1.write_book_exit n ts s).readers_in_library_count
        = s.readers_queue_count + s.readers_in_library_count) ∧
      ((RW1.write_book_exit n ts s).writers_queue_count
          + (RW1.write_book_exit n ts s).writers_in_library_count
        = s.writers_queue_count + s.writers_in_library_count)) ∧
    (∀ (k id ts κ : Int) (q q2 lib lib2 : List RW2.presence),
      (q.getD 0 RW2.zeroP).kind = k →
      RW2.leave_queue q = some q2 →
      RW2.get_to_library k id ts lib = some lib2 →
      κ ≠ RW2.NO_KIND →
      RW2.countKind κ q2 + RW2.countKind κ lib2
        = RW2.countKind κ q + RW2.countKind κ lib) ∧
    (∀ (k id ts κ : Int) (lib q q2 : List RW2.presence),
      (∃ e ∈ lib, e.kind = k ∧ e.id = id) →
      RW2.get_to_queue k id ts q = some q2 →
      κ ≠ RW2.NO_KIND →
      RW2.countKind κ (RW2.leave_library k id lib) + RW2.countKind κ q2
        = RW2.countKind κ lib + RW2.countKind κ q) := by
  refine ⟨?_, ?_, ?_⟩
  · intro n ts s
    refine ⟨?_, ?_, ?_, ?_, ?_, ?_, ?_, ?_⟩ <;>
      simp only [RW1.read_books_enter, RW1.read_books_exit, RW1.write_book_enter,
        RW1.write_book_exit] <;>
      omega
  · intro k id ts κ q q2 lib lib2 hhead hlq hgl hκ
    rw [RW2.leave_queue] at hlq
    have h1 := leaveQueueGo_count κ hκ 21 q q2 0 hlq
    rw [hhead] at h1
    have h2 := get_to_library_count k id ts lib lib2 hgl κ hκ
    omega
  · intro k id ts κ lib q q2 hmem hgq hκ
    have h1 := leave_library_count k id lib hmem κ hκ
    have h2 := get_to_queue_count k id ts q q2 hgq κ hκ
    omega

/-- Witness for `conservation_amended`: a reader enters from the head of a
reader-then-writer queue into an empty library, and a writer present in the
library leaves back into a queue with one free slot. -/
theorem conservation_amended_witness :
    ((([⟨1, 0, 3⟩, ⟨2, 0, 4⟩, RW2.zeroP] : List RW2.presence).getD 0 RW2.zeroP).kind = 1 ∧
      RW2.leave_queue [⟨1, 0, 3⟩, ⟨2, 0, 4⟩, RW2.zeroP]
        = some [⟨2, 0, 4⟩, ⟨0, 0, 4⟩, RW2.zeroP] ∧
      RW2.get_to_library 1 0 9 [RW2.zeroP] = some [⟨1, 0, 9⟩] ∧
      (1 : Int) ≠ RW2.NO_KIND ∧
      RW2.countKind 1 [⟨2, 0, 4⟩, ⟨0, 0, 4⟩, RW2.zeroP] + RW2.countKind 1 [⟨1, 0, 9⟩]
        = RW2.countKind 1 [⟨1, 0, 3⟩, ⟨2, 0, 4⟩, RW2.zeroP] + RW2.countKind 1 [RW2.zeroP]) ∧
    ((∃ e ∈ ([⟨2, 5, 7⟩] : List RW2.presence), e.kind = 2 ∧ e.id = 5) ∧
      RW2.get_to_queue 2 5 8 [RW2.zeroP] = some [⟨2, 5, 8⟩] ∧
      (2 : Int) ≠ RW2.NO_KIND ∧
      RW2.countKind 2 (RW2.leave_library 2 5 [⟨2, 5, 7⟩]) + RW2.countKind 2 [⟨2, 5, 8⟩]
        = RW2.countKind 2 [⟨2, 5, 7⟩] + RW2.countKind 2 [RW2.zeroP]) :=
  ⟨⟨by decide, rfl, rfl, by decide,
      conservation_amended.2.1 1 0 9 1 [⟨1, 0, 3⟩, ⟨2, 0, 4⟩, RW2.zeroP]
        [⟨2, 0, 4⟩, ⟨0, 0, 4⟩, RW2.zeroP] [RW2.zeroP] [⟨1, 0, 9⟩]
        (by decide) rfl rfl (by decide)⟩,
    ⟨⟨⟨2, 5, 7⟩, by decide, by decide, by decide⟩, rfl, by decide,
      conservation_amended.2.2 2 5 8 2 [⟨2, 5, 7⟩] [RW2.zeroP] [⟨2, 5, 8⟩]
        ⟨⟨2, 5, 7⟩, by decide, by decide, by decide⟩ rfl (by decide)⟩⟩

/-- C4: with 25 agents (here 25 readers, ids 0..24, all enqueued at startup)
the first admission's `leave_queue` stops at the hardcoded `i < 20` bound:
it shifts only slots 0..19, blanks slot 20, and strands the earlier arrivals
R21..R24 behind the hole.  When the served agent R0 re-enqueues,
`get_to_queue` places it into slot 20 — ahead of R21..R24, which enqueued
strictly earlier and have not been admitted yet.  Head-order service then
admits R0 a second time before R21..R24's first admission, violating FIFO. -/
theorem fifo_violated_by_shift_cap :
    ∃ q1 q2 : List RW2.presence,
      RW2.leave_queue (RW2.initLayout 25 0 (fun _ => 0)) = some q1 ∧
      q1.getD 19 RW2.zeroP = ⟨RW2.READER_KIND, 20, 0⟩ ∧
      q1.getD 20 RW2.zeroP = ⟨RW2.NO_KIND, 20, 0⟩ ∧
      q1.getD 21 RW2.zeroP = ⟨RW2.READER_KIND, 21, 0⟩ ∧
      RW2.get_to_queue RW2.READER_KIND 0 9 q1 = some q2 ∧
      q2.getD 20 RW2.zeroP = ⟨RW2.READER_KIND, 0, 9⟩ ∧
      q2.getD 21 RW2.zeroP = ⟨RW2.READER_KIND, 21, 0⟩ ∧
      q2.getD 24 RW2.zeroP = ⟨RW2.READER_KIND, 24, 0⟩ := by
  refine ⟨_, _, rfl, ?_, ?_, ?_, rfl, ?_, ?_, ?_⟩ <;> rfl

/-- C1: a state with one writer and one reader simultaneously in the library
is reachable in r_w_1.c under the interleaving semantics.  The schedule: the
reader passes its gate check (`writer_notification == 0`) and releases the
mutex; before it enters `read_books`, the librarian wakes, finds no writer
in the library, sets the gate and signals the writer; the writer wakes, sees
`readers_in_library_count == 0` (the reader has not entered yet), and enters
the library; then the reader, already past its only check, enters too. -/
theorem mutual_exclusion_violated :
    ∃ s : RW1.StateA, RW1.ReachableA s ∧
      s.writers_in_library_count = 1 ∧ s.readers_in_library_count = 1 := by
  refine ⟨⟨true, 1, 1, 0, 0, RW1.RPC.inLib, RW1.WPC.inLib⟩, ?_, rfl, rfl⟩
  exact Relation.ReflTransGen.tail (Relation.ReflTransGen.tail
    (Relation.ReflTransGen.tail (Relation.ReflTransGen.tail
      Relation.ReflTransGen.refl
      (RW1.StepA.reader_check_pass RW1.initA rfl rfl))
      (RW1.StepA.librarian_cycle _ rfl))
      (RW1.StepA.writer_enter _ rfl rfl))
      (RW1.StepA.reader_enter _ rfl)
